import Mathlib

/-!
Verification of the Digital Nomad Recommendation System core engine
(`dn_recommendations.py`) against its natural-language specification.

The engine manipulates pandas DataFrames whose numeric cells may be NaN
(missing).  We embed such cells as `Option ℚ` (`none` = NaN / missing),
with NaN-propagating arithmetic, skipna aggregation (`omaxList`,
`ominList`), and comparisons that are false on NaN — matching IEEE/pandas
semantics for the operations the engine performs.  Where Python's
truthiness distinguishes `None` (falsy) from `nan` (truthy) we use the
finer-grained `PyVal` type.
-/

namespace DN

/-- Arithmetic on possibly-missing rationals: NaN (`none`) propagates. -/
def oadd : Option ℚ → Option ℚ → Option ℚ
  | some a, some b => some (a + b)
  | _, _ => none

/-- Subtraction with NaN propagation. -/
def osub : Option ℚ → Option ℚ → Option ℚ
  | some a, some b => some (a - b)
  | _, _ => none

/-- Division with NaN propagation (the engine never divides by zero;
this is proved below, so the `ℚ` division-by-zero convention is never hit). -/
def odiv : Option ℚ → Option ℚ → Option ℚ
  | some a, some b => some (a / b)
  | _, _ => none

/-- Multiplication of a possibly-missing value by a scalar, NaN propagating. -/
def omulc : Option ℚ → ℚ → Option ℚ
  | some a, c => some (a * c)
  | none, _ => none

/-- Skipna maximum of a column, as pandas `Series.max()`: `none` (NaN) cells
are ignored; the result is `none` iff no cell is defined. -/
def omaxList (l : List (Option ℚ)) : Option ℚ :=
  l.foldl (fun acc x =>
    match acc, x with
    | none, x => x
    | some a, none => some a
    | some a, some b => some (max a b)) none

/-- Skipna minimum of a column, as pandas `Series.min()`. -/
def ominList (l : List (Option ℚ)) : Option ℚ :=
  l.foldl (fun acc x =>
    match acc, x with
    | none, x => x
    | some a, none => some a
    | some a, some b => some (min a b)) none

/-- Pandas comparison `cell <= c`: false when the cell is NaN. -/
def pyLeQ (a : Option ℚ) (c : ℚ) : Bool :=
  match a with
  | some x => decide (x ≤ c)
  | none => false

/-- Pandas comparison `cell >= c`: false when the cell is NaN. -/
def pyGeQ (a : Option ℚ) (c : ℚ) : Bool :=
  match a with
  | some x => decide (c ≤ x)
  | none => false

/-- Row-wise mean over the two speed columns with `skipna=True`, as
`df[[mobile, fixed]].mean(axis=1)`: the defined values are averaged; if
both are NaN the mean is NaN. -/
def pyMean2 : Option ℚ → Option ℚ → Option ℚ
  | some a, some b => some ((a + b) / 2)
  | some a, none => some a
  | none, some b => some b
  | none, none => none

/-- Python `str(cell)` on a string cell: NaN prints as the string "nan". -/
def pyStr : Option String → String
  | some s => s
  | none => "nan"

/-- ASCII lowercasing, as Python `str.lower` / `str.casefold` on the ASCII
region names and visa-category labels the engine compares. -/
def strLower (s : String) : String :=
  String.mk (s.data.map Char.toLower)

/-- Whitespace test for `strip`. -/
def isWsp (c : Char) : Bool :=
  c == ' ' || c == '\t' || c == '\n' || c == '\r'

/-- Character-list version of Python `str.strip`. -/
def trimChars (l : List Char) : List Char :=
  ((l.dropWhile isWsp).reverse.dropWhile isWsp).reverse

/-- Python `str.strip` (structurally recursive, so proofs can evaluate
it). -/
def strTrim (s : String) : String :=
  String.mk (trimChars s.data)

/-- Whether `pat` is a prefix of the character list. -/
def lstarts : List Char → List Char → Bool
  | [], _ => true
  | _ :: _, [] => false
  | p :: ps, c :: cs => p == c && lstarts ps cs

/-- Whether `pat` occurs contiguously in the character list. -/
def lcontains (pat : List Char) : List Char → Bool
  | [] => lstarts pat []
  | c :: cs => lstarts pat (c :: cs) || lcontains pat cs

/-- Substring test, Python's `needle in haystack`. -/
def hasSub (haystack needle : String) : Bool :=
  lcontains needle.data haystack.data

/-- Python cell values as seen by `Series.get` / truthiness: a key can be
absent, hold `None` (falsy), hold float NaN (truthy!), or hold a number. -/
inductive PyVal where
  | vAbsent : PyVal
  | vNone : PyVal
  | vNan : PyVal
  | vNum : ℚ → PyVal
deriving DecidableEq, Repr

/-- Embeds the Python idiom `row.get(key, 0) or 0` from
`DigitalNomadRecommender.load_cost_data`: an absent key yields the default
`0`, `None` is falsy so `or 0` turns it into `0`, but float NaN is *truthy*
in Python, so a NaN cell passes through unchanged. -/
def pyGetOr0 : PyVal → PyVal
  | PyVal.vAbsent => PyVal.vNum 0
  | PyVal.vNone => PyVal.vNum 0
  | PyVal.vNan => PyVal.vNan
  | PyVal.vNum q => PyVal.vNum q

/-- Python float addition on the outputs of `pyGetOr0` (numbers or NaN);
NaN propagates through `sum`. -/
def pyAdd : PyVal → PyVal → PyVal
  | PyVal.vNum a, PyVal.vNum b => PyVal.vNum (a + b)
  | _, _ => PyVal.vNan

/-- Whether a Python cell value is an actual (defined) number. -/
def PyVal.isNum : PyVal → Bool
  | PyVal.vNum _ => true
  | _ => false

/-- The numeric content of a cell, with missing values read as 0 (used only
to state what the sum evaluates to when no NaN is involved). -/
def PyVal.q0 : PyVal → ℚ
  | PyVal.vNum q => q
  | _ => 0

/-- Conversion of a numeric Python cell to the `Option ℚ` column model. -/
def PyVal.toOpt : PyVal → Option ℚ
  | PyVal.vNum q => some q
  | _ => none

/-- One raw row of the cost-of-living table handed to `load_cost_data`
(from the cost adapter contract: per-city rows whose five numeric component
fields may be absent, `None`, or NaN). -/
structure CostRow where
  city : Option String
  rent_1br_city_center_usd : PyVal
  utilities_basic_usd : PyVal
  internet_60mbps_usd : PyVal
  transport_monthly_pass_usd : PyVal
  food_estimate_usd : PyVal
deriving DecidableEq, Repr

/-- The derived `monthly_cost` cell of `load_cost_data`: the Python
expression `sum([row.get(f, 0) or 0 for f in five fields])` (written out
explicitly in the source). -/
def monthlyCostOf (r : CostRow) : PyVal :=
  pyAdd (pyAdd (pyAdd (pyAdd
    (pyGetOr0 r.rent_1br_city_center_usd)
    (pyGetOr0 r.utilities_basic_usd))
    (pyGetOr0 r.internet_60mbps_usd))
    (pyGetOr0 r.transport_monthly_pass_usd))
    (pyGetOr0 r.food_estimate_usd)

/-- A cost row together with its derived `monthly_cost` column. -/
structure LoadedCostRow where
  base : CostRow
  monthly_cost : PyVal
deriving DecidableEq, Repr

/-- Embeds `DigitalNomadRecommender.load_cost_data`: copies the table and
adds the `monthly_cost` column computed per row. -/
def load_cost_data (rows : List CostRow) : List LoadedCostRow :=
  rows.map (fun r => ⟨r, monthlyCostOf r⟩)

/-- Whether any of the five cost component cells is NaN. -/
def hasNanComp (r : CostRow) : Bool :=
  r.rent_1br_city_center_usd == PyVal.vNan ||
  r.utilities_basic_usd == PyVal.vNan ||
  r.internet_60mbps_usd == PyVal.vNan ||
  r.transport_monthly_pass_usd == PyVal.vNan ||
  r.food_estimate_usd == PyVal.vNan

/-- One row of the combined dataset built by `merge_datasets` (also the row
shape of a cached combined CSV).  String cells are `Option String` (`none`
= NaN); `visa_free` is a genuine bool column (the cache reader coerces it
with `astype(bool)`); score columns are NaN until `calculate_nomad_score`
fills them. -/
structure CombRow where
  city : Option String
  country : Option String
  region : Option String
  visa_free : Bool
  rent_1br_city_center_usd : Option ℚ
  utilities_basic_usd : Option ℚ
  internet_60mbps_usd : Option ℚ
  transport_monthly_pass_usd : Option ℚ
  food_estimate_usd : Option ℚ
  monthly_cost : Option ℚ
  mobile_mbps : Option ℚ
  fixed_mbps : Option ℚ
  avg_internet_mbps : Option ℚ
  visa_score : Option ℚ
  cost_score : Option ℚ
  speed_score : Option ℚ
  nomad_score : Option ℚ
deriving DecidableEq, Repr

/-- The fixed city→country dictionary of `merge_datasets`. -/
def cityToCountry : List (String × String) :=
  [("Zurich", "Switzerland"), ("Paris", "France"), ("Berlin", "Germany"),
   ("Sydney", "Australia"), ("Amsterdam", "Netherlands"), ("Seoul", "South Korea"),
   ("Dubai", "United Arab Emirates"), ("Toronto", "Canada"), ("Tokyo", "Japan"),
   ("London", "United Kingdom"), ("New York", "United States"),
   ("Hong Kong", "Hong Kong"), ("Barcelona", "Spain"),
   ("Johannesburg", "South Africa"), ("Singapore", "Singapore"),
   ("Prague", "Czech Republic"), ("Lisbon", "Portugal"),
   ("Bangkok", "Thailand"), ("Mexico City", "Mexico")]

/-- The fixed `REGION_BY_COUNTRY` lookup, with the US-alias entries that
`_ensure_region_column` adds via `setdefault`. -/
def regionByCountry : List (String × String) :=
  [("Switzerland", "Europe"), ("France", "Europe"), ("Germany", "Europe"),
   ("Australia", "Oceania"), ("Netherlands", "Europe"), ("South Korea", "Asia"),
   ("United Arab Emirates", "Asia"), ("Canada", "Americas"), ("Japan", "Asia"),
   ("United Kingdom", "Europe"), ("United States", "Americas"),
   ("Hong Kong", "Asia"), ("Spain", "Europe"), ("South Africa", "Africa"),
   ("Singapore", "Asia"), ("Czech Republic", "Europe"), ("Czechia", "Europe"),
   ("Portugal", "Europe"), ("Thailand", "Asia"), ("Mexico", "Americas"),
   ("United States of America", "Americas"), ("USA", "Americas"),
   ("U.S.", "Americas"), ("US", "Americas")]

/-- Association-list lookup, as `dict.get` / `Series.map(dict)`:
an unmapped (or NaN) key maps to NaN. -/
def alookup (m : List (String × String)) (k : Option String) : Option String :=
  match k with
  | some s => (m.find? (fun p => p.1 == s)).map Prod.snd
  | none => none

/-- The `_canon` normalizer inside `_ensure_region_column`: casefolded
substring matching against the five canonical region names, empty strings
becoming "Other". -/
def canonRegion (s : String) : String :=
  let t := strLower (strTrim s)
  if hasSub t "amer" then "Americas"
  else if hasSub t "euro" then "Europe"
  else if hasSub t "asia" then "Asia"
  else if hasSub t "afri" then "Africa"
  else if hasSub t "ocea" || hasSub t "austral" then "Oceania"
  else if s == "" then "Other" else s

/-- Region cell treated as missing by `_ensure_region_column`
(`isna` or blank after stripping). -/
def regionMissing : Option String → Bool
  | none => true
  | some s => strTrim s == ""

/-- Embeds `_ensure_region_column`, per row: missing/blank region cells are
filled from the country map, remaining NaN becomes "Other", values are
stripped and canonicalized.  (A table with no region column behaves like a
table whose region cells are all NaN: both are filled from the map.) -/
def ensureRegionRow (r : CombRow) : CombRow :=
  let r1 : Option String :=
    if regionMissing r.region then alookup regionByCountry r.country else r.region
  let r2 : String := strTrim (r1.getD "Other")
  { r with region := some (canonRegion r2) }

/-- Embeds `_ensure_region_column` on a whole table. -/
def ensureRegion (rows : List CombRow) : List CombRow :=
  rows.map ensureRegionRow

/-- The home-country alias match of `_apply_home_country_visa_override`:
`df["country"].astype(str).str.strip().isin([home, "United States of
America", "USA", "US"])`.  A NaN country prints as "nan" and never
matches. -/
def homeMask (home : String) (country : Option String) : Bool :=
  let s := strTrim (pyStr country)
  s == home || s == "United States of America" || s == "USA" || s == "US"

/-- Embeds `_apply_home_country_visa_override`: rows whose (stripped)
country is the home country or a US alias get `visa_free := true`. -/
def applyHomeCountryVisaOverride (rows : List CombRow) (home : String) : List CombRow :=
  rows.map (fun r => if homeMask home r.country then { r with visa_free := true } else r)

/-- One row of a per-country speed table as passed to `merge_datasets`
(after `load_speed_data` renamed the `Mbps` column). -/
structure SpeedRow where
  country : Option String
  mbps : Option ℚ
deriving DecidableEq, Repr

/-- The union of all countries listed under any visa category whose label
contains "visa-free" (case-insensitive), from `merge_datasets`. -/
def visaFreeCountries (visaDict : List (String × List String)) : List String :=
  (visaDict.filter (fun p => hasSub (strLower p.1) "visa-free")).flatMap Prod.snd

/-- A pandas left merge of the base table with a speed table on
country = Country: each base row is replicated once per matching speed row
(pandas matches NaN keys with NaN keys); with no match the speed cell is
NaN.  `upd` stores the matched speed value into the row. -/
def leftMergeSpeed (upd : CombRow → Option ℚ → CombRow)
    (base : List CombRow) (speed : List SpeedRow) : List CombRow :=
  base.flatMap (fun r =>
    match speed.filter (fun s => s.country == r.country) with
    | [] => [upd r none]
    | ms => ms.map (fun s => upd r s.mbps))

/-- The base row `merge_datasets` builds from one loaded cost row: country
mapped through the city dictionary, `visa_free` by membership in the
visa-free country union, all other derived cells still NaN. -/
def baseRowOf (visaDict : List (String × List String)) (r : LoadedCostRow) : CombRow :=
  let country := alookup cityToCountry r.base.city
  { city := r.base.city
    country := country
    region := none
    visa_free := match country with
      | some c => c ∈ visaFreeCountries visaDict
      | none => false
    rent_1br_city_center_usd := r.base.rent_1br_city_center_usd.toOpt
    utilities_basic_usd := r.base.utilities_basic_usd.toOpt
    internet_60mbps_usd := r.base.internet_60mbps_usd.toOpt
    transport_monthly_pass_usd := r.base.transport_monthly_pass_usd.toOpt
    food_estimate_usd := r.base.food_estimate_usd.toOpt
    monthly_cost := r.monthly_cost.toOpt
    mobile_mbps := none
    fixed_mbps := none
    avg_internet_mbps := none
    visa_score := none
    cost_score := none
    speed_score := none
    nomad_score := none }

/-- Embeds `DigitalNomadRecommender.merge_datasets`.  Returns `none` when
either speed table is empty: the corresponding merge is skipped, the
renamed speed column never exists, and the row-wise mean selection
`base[["mobile_mbps", "fixed_mbps"]]` raises a `KeyError`. -/
def merge_datasets (cost : List LoadedCostRow) (visaDict : List (String × List String))
    (mobile fixed : List SpeedRow) : Option (List CombRow) :=
  if mobile.isEmpty || fixed.isEmpty then none
  else
    let base := cost.map (baseRowOf visaDict)
    let base := leftMergeSpeed (fun r v => { r with mobile_mbps := v }) base mobile
    let base := leftMergeSpeed (fun r v => { r with fixed_mbps := v }) base fixed
    let base := base.map (fun r =>
      { r with avg_internet_mbps := pyMean2 r.mobile_mbps r.fixed_mbps })
    some (applyHomeCountryVisaOverride (ensureRegion base) "United States")

/-- The cost denominator of `calculate_nomad_score`:
`(max_cost - min_cost) if max_cost != min_cost else 1.0`.  When the column
has no defined value both aggregates are NaN, Python's `NaN != NaN` is
true, and the denominator is `NaN - NaN = NaN`. -/
def denomCost (maxC minC : Option ℚ) : Option ℚ :=
  match maxC, minC with
  | some m, some n => if m ≠ n then some (m - n) else some 1
  | _, _ => none

/-- The speed denominator of `calculate_nomad_score`:
`max_speed if max_speed not in (0, None, float("nan")) else 1.0`.
A zero maximum is caught (`0 == 0`); a NaN maximum is *not*: tuple
membership tests `is` / `==`, and `nan == nan` is false, so the
denominator stays NaN. -/
def denomSpeed (maxS : Option ℚ) : Option ℚ :=
  match maxS with
  | some m => if m = 0 then some 1 else some m
  | none => none

/-- The per-row score assignment of `calculate_nomad_score`, given the
column aggregates: `visa_score` is 100/50 by the `visa_free` flag,
`cost_score = (max_cost - cost) / denom_cost * 100`,
`speed_score = avg / denom_speed * 100`, and `nomad_score` is the weighted
sum of the three (NaN propagating). -/
def scoreRow (maxC dC dS : Option ℚ) (wv wc ws : ℚ) (r : CombRow) : CombRow :=
  let v : Option ℚ := some (if r.visa_free then 100 else 50)
  let c : Option ℚ := omulc (odiv (osub maxC r.monthly_cost) dC) 100
  let s : Option ℚ := omulc (odiv r.avg_internet_mbps dS) 100
  { r with
    visa_score := v
    cost_score := c
    speed_score := s
    nomad_score := oadd (oadd (omulc v wv) (omulc c wc)) (omulc s ws) }

/-- Embeds `DigitalNomadRecommender.calculate_nomad_score` (weights default
to 0.25 / 0.40 / 0.35 at the call sites): computes the column aggregates
once, then rewrites the four score columns of every row. -/
def calculate_nomad_score (df : List CombRow) (wv wc ws : ℚ) : List CombRow :=
  let maxC := omaxList (df.map CombRow.monthly_cost)
  let minC := ominList (df.map CombRow.monthly_cost)
  let maxS := omaxList (df.map CombRow.avg_internet_mbps)
  df.map (scoreRow maxC (denomCost maxC minC) (denomSpeed maxS) wv wc ws)

/-- Round-half-to-even to an integer, the rounding mode of
`numpy.round` / `DataFrame.round`. -/
def rhe (x : ℚ) : ℤ :=
  if x - ⌊x⌋ < 1/2 then ⌊x⌋
  else if x - ⌊x⌋ > 1/2 then ⌊x⌋ + 1
  else if Even ⌊x⌋ then ⌊x⌋ else ⌊x⌋ + 1

/-- Round-half-to-even to two decimal places, as `DataFrame.round(2)`. -/
def round2 (x : ℚ) : ℚ := (rhe (x * 100) : ℚ) / 100

/-- Rounding a numeric column cell: NaN stays NaN. -/
def oround2 : Option ℚ → Option ℚ := Option.map round2

/-- One row of the table returned by `get_recommendations`: the fixed
column projection, numeric cells rounded to two decimals. -/
structure ResultRow where
  city : Option String
  country : Option String
  nomad_score : Option ℚ
  monthly_cost : Option ℚ
  avg_internet_mbps : Option ℚ
  visa_free : Bool
  rent_1br_city_center_usd : Option ℚ
  internet_60mbps_usd : Option ℚ
  transport_monthly_pass_usd : Option ℚ
deriving DecidableEq, Repr

/-- The projection-and-round step of `get_recommendations`:
`recommendations[[...]].round(2)` (booleans and strings unaffected). -/
def projectRound (r : CombRow) : ResultRow :=
  { city := r.city
    country := r.country
    nomad_score := oround2 r.nomad_score
    monthly_cost := oround2 r.monthly_cost
    avg_internet_mbps := oround2 r.avg_internet_mbps
    visa_free := r.visa_free
    rent_1br_city_center_usd := oround2 r.rent_1br_city_center_usd
    internet_60mbps_usd := oround2 r.internet_60mbps_usd
    transport_monthly_pass_usd := oround2 r.transport_monthly_pass_usd }

/-- Sort key for `nlargest`: the row's nomad score (rows with a NaN score
are removed before sorting, so the default is never read). -/
def sval (r : CombRow) : ℚ := r.nomad_score.getD 0

/-- Descending-score order used to model `nlargest` (non-strict, so the
insertion sort is stable and ties keep original row order, matching
pandas `keep="first"`). -/
def scoreGe (a b : CombRow) : Prop := sval b ≤ sval a

instance : DecidableRel scoreGe := fun a b => by
  unfold scoreGe; infer_instance

instance : IsTotal CombRow scoreGe :=
  ⟨fun a b => le_total (sval b) (sval a)⟩

instance : IsTrans CombRow scoreGe :=
  ⟨fun _ _ _ h h2 => le_trans h2 h⟩

/-- Embeds `filtered.nlargest(top_n, "nomad_score")`: rows whose score is
NaN are dropped, the rest are stably sorted by score descending, and the
first `n` are kept. -/
def nlargestByScore (n : ℕ) (l : List CombRow) : List CombRow :=
  ((l.filter (fun r => r.nomad_score.isSome)).insertionSort scoreGe).take n

/-- The budget filter `df[df["monthly_cost"] <= max_budget]`
(NaN cost compares false and is dropped). -/
def budgetFilter (maxBudget : ℚ) (l : List CombRow) : List CombRow :=
  l.filter (fun r => pyLeQ r.monthly_cost maxBudget)

/-- Whether the region argument activates filtering:
`region and region.strip() and region.strip().lower() != "global"`. -/
def regionActive : Option String → Bool
  | none => false
  | some s => s ≠ "" && strTrim s ≠ "" && strLower (strTrim s) ≠ "global"

/-- The region filter: case-insensitive exact match of `str(region_cell)`
against the stripped, casefolded requested region. -/
def regionFilter (reg : Option String) (l : List CombRow) : List CombRow :=
  if regionActive reg then
    l.filter (fun r => strLower (pyStr r.region) == strLower (strTrim (reg.getD "")))
  else l

/-- The speed filter, guarded by Python truthiness `if min_speed:`:
a zero minimum skips the filter entirely; otherwise
`filtered[filtered["avg_internet_mbps"] >= float(min_speed)]`
(NaN speed compares false and is dropped). -/
def speedFilter (minSpeed : ℚ) (l : List CombRow) : List CombRow :=
  if minSpeed ≠ 0 then l.filter (fun r => pyGeQ r.avg_internet_mbps minSpeed) else l

/-- The visa filter `filtered[filtered["visa_free"] == True]`, applied only
when requested. -/
def visaFilter (visaFreeOnly : Bool) (l : List CombRow) : List CombRow :=
  if visaFreeOnly then l.filter (fun r => r.visa_free) else l

/-- Embeds `DigitalNomadRecommender.get_recommendations`: budget, region,
speed and visa filters in source order, then top-N by nomad score
descending, then the fixed rounded projection. -/
def get_recommendations (df : List CombRow) (maxBudget minSpeed : ℚ)
    (visaFreeOnly : Bool) (topN : ℕ) (reg : Option String) : List ResultRow :=
  (nlargestByScore topN
    (visaFilter visaFreeOnly
      (speedFilter minSpeed
        (regionFilter reg
          (budgetFilter maxBudget df))))).map projectRound

/-- The three source fetchers the orchestrator may invoke. -/
inductive FetchCall where
  | visa : FetchCall
  | cost : FetchCall
  | speed : FetchCall
deriving DecidableEq, Repr

/-- The failure conditions `ensure_daily_dataset` can surface:
`NoCachedDataError`, `CostOfLivingRateLimitError`, `CostOfLivingFetchError`,
and the `KeyError` escaping `merge_datasets` when a speed table is empty. -/
inductive DNError where
  | noCachedData : DNError
  | costRateLimit : DNError
  | costFetch : DNError
  | columnMissing : DNError
deriving DecidableEq, Repr

/-- The environment `ensure_daily_dataset` runs against: the current day
tag, the parsed snapshot files on disk (pattern-matching `combined_*_*.csv`
files that parse as CSV; an unreadable file simply is not in the list), the
cache-only flag, and what each source fetcher would return if invoked. -/
structure Env where
  todayTag : String
  files : List (String × List CombRow)
  cacheOnly : Bool
  visaSrc : List (String × List String)
  costSrc : List CostRow
  costRateLimited : Bool
  costHttpError : Bool
  mobileSrc : List SpeedRow
  fixedSrc : List SpeedRow

/-- The `_df_looks_valid` check on a parsed snapshot (its required columns
being structurally present): non-empty, and at least one non-null city and
one non-null country. -/
def dfLooksValid (rows : List CombRow) : Bool :=
  !rows.isEmpty &&
  rows.any (fun r => r.city.isSome) &&
  rows.any (fun r => r.country.isSome)

/-- Embeds `_try_read_today`: today's snapshot file, if present and valid. -/
def tryReadToday (env : Env) : Option (List CombRow) :=
  match env.files.find? (fun p => p.1 == env.todayTag) with
  | some p => if dfLooksValid p.2 then some p.2 else none
  | none => none

/-- Embeds `_find_latest_combined_cache`: the snapshot file with the
lexicographically greatest day tag, if any. -/
def findLatestCache (env : Env) : Option (String × List CombRow) :=
  env.files.foldl (fun acc p =>
    match acc with
    | none => some p
    | some q => if q.1 < p.1 then some p else some q) none

/-- Embeds `_try_read_latest_any_day`: reads the newest snapshot regardless
of tag; only that one candidate is validated. -/
def tryReadLatestAnyDay (env : Env) : Option (List CombRow × String) :=
  match findLatestCache env with
  | some p => if dfLooksValid p.2 then some (p.2, p.1) else none
  | none => none

/-- The defensive re-enrichment `ensure_daily_dataset` applies to an
adopted snapshot: region enrichment then the home-country visa override.
(A snapshot that passed `_df_looks_valid` has a `nomad_score` column, so
the re-scoring fallback for score-less caches never fires.) -/
def adoptCached (rows : List CombRow) : List CombRow :=
  applyHomeCountryVisaOverride (ensureRegion rows) "United States"

/-- Embeds `DigitalNomadRecommender.ensure_daily_dataset`, also recording
which source fetchers are invoked: today's cache first; in cache-only mode
fall back to the newest cache of any day or fail with the no-cached-data
condition, never fetching; otherwise invoke the three fetchers in source
order (visa, cost — whose sentinel rows can raise rate-limit or fetch
errors before the speed fetch — then speed) and run the build pipeline. -/
def ensure_daily_dataset (env : Env) : Except DNError (List CombRow) × List FetchCall :=
  match tryReadToday env with
  | some cached => (Except.ok (adoptCached cached), [])
  | none =>
    if env.cacheOnly then
      match tryReadLatestAnyDay env with
      | some (latest, _) => (Except.ok (adoptCached latest), [])
      | none => (Except.error DNError.noCachedData, [])
    else
      if env.costRateLimited then
        (Except.error DNError.costRateLimit, [FetchCall.visa, FetchCall.cost])
      else if env.costHttpError then
        (Except.error DNError.costFetch, [FetchCall.visa, FetchCall.cost])
      else
        match merge_datasets (load_cost_data env.costSrc) env.visaSrc
            env.mobileSrc env.fixedSrc with
        | none =>
          (Except.error DNError.columnMissing,
           [FetchCall.visa, FetchCall.cost, FetchCall.speed])
        | some merged =>
          (Except.ok (calculate_nomad_score merged (1/4) (2/5) (7/20)),
           [FetchCall.visa, FetchCall.cost, FetchCall.speed])

/-!
Example data used by witnesses and counterexamples.
-/

/-- A blank combined row (all cells NaN, `visa_free` false). -/
def row0 : CombRow :=
  { city := none, country := none, region := none, visa_free := false
    rent_1br_city_center_usd := none, utilities_basic_usd := none
    internet_60mbps_usd := none, transport_monthly_pass_usd := none
    food_estimate_usd := none, monthly_cost := none
    mobile_mbps := none, fixed_mbps := none, avg_internet_mbps := none
    visa_score := none, cost_score := none, speed_score := none
    nomad_score := none }

/-- A fully defined pre-scoring combined row. -/
def rowA : CombRow :=
  { row0 with city := some "Lisbon", country := some "Portugal"
              region := some "Europe", visa_free := true
              monthly_cost := some 1000, avg_internet_mbps := some 75 }

/-- A one-row combined table. -/
def dfA : List CombRow := [rowA]

/-- The row `calculate_nomad_score` produces from `rowA` in `dfA` with the
default weights: visa 100, cost (1000-1000)/1*100 = 0, speed 75/75*100 =
100, nomad 100/4 + 0 + 100*7/20 = 60. -/
def rowA1 : CombRow :=
  { rowA with visa_score := some 100, cost_score := some 0
              speed_score := some 100, nomad_score := some 60 }

/-!
Claim C1 — `nomad_score` is the weighted sum of the three sub-scores.
-/

/-- Claim C1: in every table produced (or re-scored) by
`calculate_nomad_score` with weights `wv, wc, ws`, every row satisfies
`nomad_score = visa_score*wv + cost_score*wc + speed_score*ws` (NaN
propagating; in the exact-rational model the equality is exact, which
subsumes "within floating-point tolerance"). -/
theorem calculate_nomad_score_weighted_sum (df : List CombRow) (wv wc ws : ℚ)
    (r : CombRow) (hr : r ∈ calculate_nomad_score df wv wc ws) :
    r.nomad_score =
      oadd (oadd (omulc r.visa_score wv) (omulc r.cost_score wc))
        (omulc r.speed_score ws) := by
  unfold calculate_nomad_score at hr
  simp only [List.mem_map] at hr
  obtain ⟨r0, _, rfl⟩ := hr
  rfl

/-- Witness for C1: the weighted-sum identity evaluated on the concrete
scored table `calculate_nomad_score dfA` with the default weights. -/
theorem calculate_nomad_score_weighted_sum_witness :
    rowA1.nomad_score =
      oadd (oadd (omulc rowA1.visa_score (1/4)) (omulc rowA1.cost_score (2/5)))
        (omulc rowA1.speed_score (7/20)) :=
  calculate_nomad_score_weighted_sum dfA (1/4) (2/5) (7/20) rowA1 (by
    simp [calculate_nomad_score, dfA, scoreRow, omaxList, ominList, denomCost,
      denomSpeed, oadd, omulc, odiv, osub, rowA1, rowA, row0]
    norm_num)

/-!
Claim C4 — re-scoring an already-scored table with the same weights is
idempotent.
-/

/-- Projection fact: scoring leaves `monthly_cost` unchanged. -/
theorem scoreRow_monthly_cost (maxC dC dS : Option ℚ) (wv wc ws : ℚ) (r : CombRow) :
    (scoreRow maxC dC dS wv wc ws r).monthly_cost = r.monthly_cost := rfl

/-- Projection fact: scoring leaves `avg_internet_mbps` unchanged. -/
theorem scoreRow_avg (maxC dC dS : Option ℚ) (wv wc ws : ℚ) (r : CombRow) :
    (scoreRow maxC dC dS wv wc ws r).avg_internet_mbps = r.avg_internet_mbps := rfl

/-- Scoring a row twice with the same aggregates and weights equals scoring
it once: the score columns are recomputed from cells scoring never
touches. -/
theorem scoreRow_scoreRow (maxC dC dS : Option ℚ) (wv wc ws : ℚ) (r : CombRow) :
    scoreRow maxC dC dS wv wc ws (scoreRow maxC dC dS wv wc ws r) =
      scoreRow maxC dC dS wv wc ws r := rfl

/-- Claim C4: running `calculate_nomad_score` again on a table it has
already scored, with identical weights, changes nothing — every
`visa_score`, `cost_score`, `speed_score` and `nomad_score` (indeed the
whole table) is unchanged. -/
theorem calculate_nomad_score_idempotent (df : List CombRow) (wv wc ws : ℚ) :
    calculate_nomad_score (calculate_nomad_score df wv wc ws) wv wc ws =
      calculate_nomad_score df wv wc ws := by
  unfold calculate_nomad_score
  simp only [List.map_map]
  have hc : (CombRow.monthly_cost ∘
      scoreRow (omaxList (df.map CombRow.monthly_cost))
        (denomCost (omaxList (df.map CombRow.monthly_cost))
          (ominList (df.map CombRow.monthly_cost)))
        (denomSpeed (omaxList (df.map CombRow.avg_internet_mbps))) wv wc ws) =
      CombRow.monthly_cost := funext fun r => rfl
  have ha : (CombRow.avg_internet_mbps ∘
      scoreRow (omaxList (df.map CombRow.monthly_cost))
        (denomCost (omaxList (df.map CombRow.monthly_cost))
          (ominList (df.map CombRow.monthly_cost)))
        (denomSpeed (omaxList (df.map CombRow.avg_internet_mbps))) wv wc ws) =
      CombRow.avg_internet_mbps := funext fun r => rfl
  rw [hc, ha]
  exact List.map_congr_left fun r _ => scoreRow_scoreRow _ _ _ _ _ _ r

/-!
Claim C5 — the speed-score denominator.
-/

/-- Counterexample to C5 as stated: when every `avg_internet_mbps` is NaN
the column maximum is NaN, and Python's tuple-membership test
`max_speed not in (0, None, float("nan"))` does NOT catch it (NaN compares
unequal to everything, including another NaN object), so the denominator
stays NaN instead of being fixed to 1.0. -/
theorem denomSpeed_nan_counterexample :
    denomSpeed (omaxList ([row0].map CombRow.avg_internet_mbps)) = none ∧
      denomSpeed (omaxList ([row0].map CombRow.avg_internet_mbps)) ≠ some 1 := by
  decide

/-- Claim C5 (amended): in `calculate_nomad_score`, every row's
`speed_score` equals `avg_internet_mbps / denom * 100` where `denom` is the
column maximum, fixed to 1.0 when that maximum is zero; when the maximum is
NaN (all speeds undefined) the denominator remains NaN rather than 1.0 (so
`speed_score` is NaN for every row); the computation never divides by
zero. -/
theorem denomSpeed_spec (df : List CombRow) (wv wc ws : ℚ) (r : CombRow)
    (hr : r ∈ calculate_nomad_score df wv wc ws) :
    r.speed_score =
      omulc (odiv r.avg_internet_mbps
        (denomSpeed (omaxList (df.map CombRow.avg_internet_mbps)))) 100 ∧
    denomSpeed (omaxList (df.map CombRow.avg_internet_mbps)) ≠ some 0 ∧
    (omaxList (df.map CombRow.avg_internet_mbps) = some 0 →
      denomSpeed (omaxList (df.map CombRow.avg_internet_mbps)) = some 1) ∧
    (omaxList (df.map CombRow.avg_internet_mbps) = none →
      denomSpeed (omaxList (df.map CombRow.avg_internet_mbps)) = none) := by
  refine ⟨?_, ?_, ?_, ?_⟩
  · unfold calculate_nomad_score at hr
    simp only [List.mem_map] at hr
    obtain ⟨r0, _, rfl⟩ := hr
    rfl
  · rcases h : omaxList (df.map CombRow.avg_internet_mbps) with _ | m
    · simp [denomSpeed]
    · by_cases hm : m = 0 <;> simp [denomSpeed, hm]
  · intro h
    simp [h, denomSpeed]
  · intro h
    simp [h, denomSpeed]

/-- Witness for the amended C5 on the concrete table `dfA`. -/
theorem denomSpeed_spec_witness :
    rowA1.speed_score =
      omulc (odiv rowA1.avg_internet_mbps
        (denomSpeed (omaxList (dfA.map CombRow.avg_internet_mbps)))) 100 ∧
    denomSpeed (omaxList (dfA.map CombRow.avg_internet_mbps)) ≠ some 0 ∧
    (omaxList (dfA.map CombRow.avg_internet_mbps) = some 0 →
      denomSpeed (omaxList (dfA.map CombRow.avg_internet_mbps)) = some 1) ∧
    (omaxList (dfA.map CombRow.avg_internet_mbps) = none →
      denomSpeed (omaxList (dfA.map CombRow.avg_internet_mbps)) = none) :=
  denomSpeed_spec dfA (1/4) (2/5) (7/20) rowA1 (by
    simp [calculate_nomad_score, dfA, scoreRow, omaxList, ominList, denomCost,
      denomSpeed, oadd, omulc, odiv, osub, rowA1, rowA, row0]
    norm_num)

/-!
Claim C6 — `monthly_cost` from the five cost components.
-/

/-- NaN propagation of Python float addition (right argument). -/
theorem pyAdd_nan_right (x : PyVal) : pyAdd x PyVal.vNan = PyVal.vNan := by
  cases x <;> rfl

/-- NaN propagation of Python float addition (left argument). -/
theorem pyAdd_nan_left (y : PyVal) : pyAdd PyVal.vNan y = PyVal.vNan := by
  cases y <;> rfl

/-- `row.get(k, 0) or 0` on a non-NaN cell yields the defined number
(absent and `None` read as 0). -/
theorem pyGetOr0_not_nan (v : PyVal) (h : v ≠ PyVal.vNan) :
    pyGetOr0 v = PyVal.vNum v.q0 := by
  cases v <;> simp_all [pyGetOr0, PyVal.q0]

/-- A cost row with a NaN rent cell and the other four components
defined. -/
def costRowNan : CostRow :=
  { city := some "Paris", rent_1br_city_center_usd := PyVal.vNan
    utilities_basic_usd := PyVal.vNum 100, internet_60mbps_usd := PyVal.vNum 30
    transport_monthly_pass_usd := PyVal.vNum 50
    food_estimate_usd := PyVal.vNum 400 }

/-- Counterexample to C6 as stated: a NaN component is *truthy* in Python,
so `row.get(k, 0) or 0` passes it through and the sum is NaN —
`monthly_cost` is then NOT a defined number. -/
theorem load_cost_data_nan_counterexample :
    (load_cost_data [costRowNan]).map LoadedCostRow.monthly_cost = [PyVal.vNan] ∧
    (load_cost_data [costRowNan]).map (fun r => r.monthly_cost.isNum) = [false] := by
  decide

/-- Claim C6 (amended): `load_cost_data` computes `monthly_cost` as the sum
of the five component cells, treating absent and `None` components as zero;
when no component is NaN the result is the defined number given by that
sum, but a NaN component propagates and makes `monthly_cost` NaN. -/
theorem load_cost_data_monthly_cost (rows : List CostRow) (lr : LoadedCostRow)
    (h : lr ∈ load_cost_data rows) :
    (hasNanComp lr.base = true → lr.monthly_cost = PyVal.vNan) ∧
    (hasNanComp lr.base = false →
      lr.monthly_cost = PyVal.vNum
        (lr.base.rent_1br_city_center_usd.q0 + lr.base.utilities_basic_usd.q0 +
         lr.base.internet_60mbps_usd.q0 + lr.base.transport_monthly_pass_usd.q0 +
         lr.base.food_estimate_usd.q0)) := by
  unfold load_cost_data at h
  simp only [List.mem_map] at h
  obtain ⟨r0, _, rfl⟩ := h
  constructor
  · intro hnan
    simp only [hasNanComp, Bool.or_eq_true, beq_iff_eq] at hnan
    unfold monthlyCostOf
    rcases hnan with ((((h | h) | h) | h) | h) <;>
      simp [h, pyGetOr0, pyAdd_nan_left, pyAdd_nan_right]
  · intro hok
    simp only [hasNanComp, Bool.or_eq_false_iff, beq_eq_false_iff_ne, ne_eq] at hok
    obtain ⟨⟨⟨⟨h1, h2⟩, h3⟩, h4⟩, h5⟩ := hok
    unfold monthlyCostOf
    rw [pyGetOr0_not_nan _ h1, pyGetOr0_not_nan _ h2, pyGetOr0_not_nan _ h3,
      pyGetOr0_not_nan _ h4, pyGetOr0_not_nan _ h5]
    rfl

/-- A fully defined cost row. -/
def costRowFull : CostRow :=
  { city := some "Lisbon", rent_1br_city_center_usd := PyVal.vNum 800
    utilities_basic_usd := PyVal.vNum 100, internet_60mbps_usd := PyVal.vNum 30
    transport_monthly_pass_usd := PyVal.vNum 40
    food_estimate_usd := PyVal.vNum 330 }

/-- Witness for the amended C6 on a concrete loaded cost table. -/
theorem load_cost_data_monthly_cost_witness :
    (hasNanComp (LoadedCostRow.mk costRowFull (PyVal.vNum 1300)).base = true →
      (LoadedCostRow.mk costRowFull (PyVal.vNum 1300)).monthly_cost = PyVal.vNan) ∧
    (hasNanComp (LoadedCostRow.mk costRowFull (PyVal.vNum 1300)).base = false →
      (LoadedCostRow.mk costRowFull (PyVal.vNum 1300)).monthly_cost = PyVal.vNum
        ((LoadedCostRow.mk costRowFull (PyVal.vNum 1300)).base.rent_1br_city_center_usd.q0 +
         (LoadedCostRow.mk costRowFull (PyVal.vNum 1300)).base.utilities_basic_usd.q0 +
         (LoadedCostRow.mk costRowFull (PyVal.vNum 1300)).base.internet_60mbps_usd.q0 +
         (LoadedCostRow.mk costRowFull (PyVal.vNum 1300)).base.transport_monthly_pass_usd.q0 +
         (LoadedCostRow.mk costRowFull (PyVal.vNum 1300)).base.food_estimate_usd.q0)) :=
  load_cost_data_monthly_cost [costRowFull] (LoadedCostRow.mk costRowFull (PyVal.vNum 1300)) (by
    simp [load_cost_data, monthlyCostOf, costRowFull, pyGetOr0, pyAdd]
    norm_num)

/-!
Claim C8 — all-equal costs give a unit denominator and zero cost scores.
-/

/-- Folding the skipna max over a constant-`some c` column keeps `some c`. -/
theorem omaxList_const_aux (t : List (Option ℚ)) (c : ℚ)
    (h : ∀ x ∈ t, x = some c) :
    t.foldl (fun acc x =>
      match acc, x with
      | none, x => x
      | some a, none => some a
      | some a, some b => some (max a b)) (some c) = some c := by
  induction t with
  | nil => rfl
  | cons a t ih =>
    have ha := h a (List.mem_cons_self a t)
    subst ha
    simp only [List.foldl_cons, max_self]
    exact ih fun x hx => h x (List.mem_cons_of_mem _ hx)

/-- The skipna maximum of a non-empty constant-`some c` column is `c`. -/
theorem omaxList_const (l : List (Option ℚ)) (c : ℚ)
    (h : ∀ x ∈ l, x = some c) (hne : l ≠ []) : omaxList l = some c := by
  cases l with
  | nil => exact absurd rfl hne
  | cons a t =>
    have ha := h a (List.mem_cons_self a t)
    subst ha
    unfold omaxList
    simp only [List.foldl_cons]
    exact omaxList_const_aux t c fun x hx => h x (List.mem_cons_of_mem _ hx)

/-- Folding the skipna min over a constant-`some c` column keeps `some c`. -/
theorem ominList_const_aux (t : List (Option ℚ)) (c : ℚ)
    (h : ∀ x ∈ t, x = some c) :
    t.foldl (fun acc x =>
      match acc, x with
      | none, x => x
      | some a, none => some a
      | some a, some b => some (min a b)) (some c) = some c := by
  induction t with
  | nil => rfl
  | cons a t ih =>
    have ha := h a (List.mem_cons_self a t)
    subst ha
    simp only [List.foldl_cons, min_self]
    exact ih fun x hx => h x (List.mem_cons_of_mem _ hx)

/-- The skipna minimum of a non-empty constant-`some c` column is `c`. -/
theorem ominList_const (l : List (Option ℚ)) (c : ℚ)
    (h : ∀ x ∈ l, x = some c) (hne : l ≠ []) : ominList l = some c := by
  cases l with
  | nil => exact absurd rfl hne
  | cons a t =>
    have ha := h a (List.mem_cons_self a t)
    subst ha
    unfold ominList
    simp only [List.foldl_cons]
    exact ominList_const_aux t c fun x hx => h x (List.mem_cons_of_mem _ hx)

/-- Claim C8: when every row of the (non-empty) combined table has the same
defined `monthly_cost`, `calculate_nomad_score` fixes the cost denominator
to 1.0 and every row's `cost_score` is exactly 0. -/
theorem cost_score_zero_when_costs_equal (df : List CombRow) (c wv wc ws : ℚ)
    (hne : df ≠ []) (hall : ∀ r ∈ df, r.monthly_cost = some c) :
    denomCost (omaxList (df.map CombRow.monthly_cost))
        (ominList (df.map CombRow.monthly_cost)) = some 1 ∧
    ∀ r ∈ calculate_nomad_score df wv wc ws, r.cost_score = some 0 := by
  have hcol : ∀ x ∈ df.map CombRow.monthly_cost, x = some c := by
    intro x hx
    obtain ⟨r, hr, rfl⟩ := List.mem_map.mp hx
    exact hall r hr
  have hnecol : df.map CombRow.monthly_cost ≠ [] := by
    simpa using hne
  have hmax := omaxList_const _ c hcol hnecol
  have hmin := ominList_const _ c hcol hnecol
  have hden : denomCost (omaxList (df.map CombRow.monthly_cost))
      (ominList (df.map CombRow.monthly_cost)) = some 1 := by
    rw [hmax, hmin]
    simp [denomCost]
  refine ⟨hden, ?_⟩
  intro r hr
  unfold calculate_nomad_score at hr
  simp only [List.mem_map] at hr
  obtain ⟨r0, hr0, rfl⟩ := hr
  show omulc (odiv (osub (omaxList (df.map CombRow.monthly_cost)) r0.monthly_cost)
    (denomCost (omaxList (df.map CombRow.monthly_cost))
      (ominList (df.map CombRow.monthly_cost)))) 100 = some 0
  rw [hmax, hmin, hall r0 hr0]
  simp [denomCost, osub, odiv, omulc]

/-- A second combined row sharing `rowA`'s monthly cost. -/
def rowA2 : CombRow :=
  { row0 with city := some "Prague", country := some "Czech Republic"
              visa_free := false, monthly_cost := some 1000
              avg_internet_mbps := some 60 }

/-- Witness for C8 on a concrete two-row table with equal costs. -/
theorem cost_score_zero_when_costs_equal_witness :
    denomCost (omaxList ([rowA, rowA2].map CombRow.monthly_cost))
        (ominList ([rowA, rowA2].map CombRow.monthly_cost)) = some 1 ∧
    ∀ r ∈ calculate_nomad_score [rowA, rowA2] (1/4) (2/5) (7/20),
      r.cost_score = some 0 :=
  cost_score_zero_when_costs_equal [rowA, rowA2] 1000 (1/4) (2/5) (7/20)
    (by simp)
    (by
      intro r hr
      simp only [List.mem_cons, List.not_mem_nil, or_false] at hr
      rcases hr with rfl | rfl <;> rfl)

/-!
Claim C9 — `avg_internet_mbps` is the skipna mean of the two speed cells.
-/

/-- The four observable cases of the skipna row mean, from the single
equation `avg = pyMean2 mobile fixed`. -/
theorem avg_cases_of_mean (r : CombRow)
    (hmain : r.avg_internet_mbps = pyMean2 r.mobile_mbps r.fixed_mbps) :
    (∀ a b, r.mobile_mbps = some a → r.fixed_mbps = some b →
      r.avg_internet_mbps = some ((a + b) / 2)) ∧
    (∀ a, r.mobile_mbps = some a → r.fixed_mbps = none →
      r.avg_internet_mbps = some a) ∧
    (∀ b, r.mobile_mbps = none → r.fixed_mbps = some b →
      r.avg_internet_mbps = some b) ∧
    (r.mobile_mbps = none → r.fixed_mbps = none →
      r.avg_internet_mbps = none) := by
  refine ⟨?_, ?_, ?_, ?_⟩ <;> intros <;> simp_all [pyMean2]

/-- Claim C9: every row of a successful `merge_datasets` has
`avg_internet_mbps` equal to the mean of whichever of `mobile_mbps` and
`fixed_mbps` are present — the single value when exactly one is present,
their average when both are, and NaN (not zero) when both are absent. -/
theorem merge_datasets_avg_internet (cost : List LoadedCostRow)
    (vd : List (String × List String)) (mobile fixed : List SpeedRow)
    (rows : List CombRow) (hm : merge_datasets cost vd mobile fixed = some rows)
    (r : CombRow) (hr : r ∈ rows) :
    r.avg_internet_mbps = pyMean2 r.mobile_mbps r.fixed_mbps ∧
    (∀ a b, r.mobile_mbps = some a → r.fixed_mbps = some b →
      r.avg_internet_mbps = some ((a + b) / 2)) ∧
    (∀ a, r.mobile_mbps = some a → r.fixed_mbps = none →
      r.avg_internet_mbps = some a) ∧
    (∀ b, r.mobile_mbps = none → r.fixed_mbps = some b →
      r.avg_internet_mbps = some b) ∧
    (r.mobile_mbps = none → r.fixed_mbps = none →
      r.avg_internet_mbps = none) := by
  have hmain : r.avg_internet_mbps = pyMean2 r.mobile_mbps r.fixed_mbps := by
    unfold merge_datasets at hm
    split at hm
    · exact absurd hm (by simp)
    · injection hm with hm
      subst hm
      unfold applyHomeCountryVisaOverride at hr
      obtain ⟨t1, ht1, rfl⟩ := List.mem_map.mp hr
      unfold ensureRegion at ht1
      obtain ⟨t2, ht2, rfl⟩ := List.mem_map.mp ht1
      obtain ⟨t3, _, rfl⟩ := List.mem_map.mp ht2
      by_cases h : homeMask "United States" (ensureRegionRow
        { t3 with avg_internet_mbps := pyMean2 t3.mobile_mbps t3.fixed_mbps }).country
      · rw [if_pos h]; rfl
      · rw [if_neg h]; rfl
  obtain ⟨h1, h2, h3, h4⟩ := avg_cases_of_mean r hmain
  exact ⟨hmain, h1, h2, h3, h4⟩

/-- A loaded cost row for Lisbon with all components 100. -/
def lcLisbon : LoadedCostRow :=
  ⟨costRowFull, PyVal.vNum 1300⟩

/-- The combined row `merge_datasets` builds from `lcLisbon` with the
Portugal speed rows below. -/
def rowLisbon : CombRow :=
  { city := some "Lisbon", country := some "Portugal"
    region := some "Europe", visa_free := false
    rent_1br_city_center_usd := some 800, utilities_basic_usd := some 100
    internet_60mbps_usd := some 30, transport_monthly_pass_usd := some 40
    food_estimate_usd := some 330, monthly_cost := some 1300
    mobile_mbps := some 10, fixed_mbps := some 30
    avg_internet_mbps := some 20
    visa_score := none, cost_score := none, speed_score := none
    nomad_score := none }

/-- Witness for C9: the mean invariant on the concrete merge of one Lisbon
cost row with Portugal mobile/fixed speed rows. -/
theorem merge_datasets_avg_internet_witness :
    rowLisbon.avg_internet_mbps = pyMean2 rowLisbon.mobile_mbps rowLisbon.fixed_mbps ∧
    (∀ a b, rowLisbon.mobile_mbps = some a → rowLisbon.fixed_mbps = some b →
      rowLisbon.avg_internet_mbps = some ((a + b) / 2)) ∧
    (∀ a, rowLisbon.mobile_mbps = some a → rowLisbon.fixed_mbps = none →
      rowLisbon.avg_internet_mbps = some a) ∧
    (∀ b, rowLisbon.mobile_mbps = none → rowLisbon.fixed_mbps = some b →
      rowLisbon.avg_internet_mbps = some b) ∧
    (rowLisbon.mobile_mbps = none → rowLisbon.fixed_mbps = none →
      rowLisbon.avg_internet_mbps = none) :=
  merge_datasets_avg_internet [lcLisbon] []
    [⟨some "Portugal", some 10⟩] [⟨some "Portugal", some 30⟩] [rowLisbon]
    (by
      simp [merge_datasets, lcLisbon, costRowFull, baseRowOf, alookup,
        cityToCountry, visaFreeCountries, leftMergeSpeed, pyMean2,
        applyHomeCountryVisaOverride, ensureRegion, ensureRegionRow,
        regionMissing, regionByCountry, canonRegion, strTrim, trimChars,
        strLower, hasSub, lcontains, lstarts, isWsp, homeMask, pyStr,
        PyVal.toOpt, rowLisbon]
      norm_num)
    rowLisbon (by simp)

/-!
Claim C7 — the home-country visa override.
-/

/-- Rows matching the home mask come out of
`_apply_home_country_visa_override` with `visa_free = true`. -/
theorem applyOverride_mask_visa (rows : List CombRow) (home : String)
    (r : CombRow) (hr : r ∈ applyHomeCountryVisaOverride rows home)
    (hm : homeMask home r.country = true) : r.visa_free = true := by
  unfold applyHomeCountryVisaOverride at hr
  obtain ⟨t, _, rfl⟩ := List.mem_map.mp hr
  by_cases h : homeMask home t.country = true
  · rw [if_pos h]
  · rw [if_neg h] at hm ⊢
    exact absurd hm h

/-- The default home country and its aliases all satisfy the override's
stripped-string mask. -/
theorem homeMask_of_alias (c : Option String)
    (h : c = some "United States" ∨ c = some "United States of America" ∨
      c = some "USA" ∨ c = some "US") :
    homeMask "United States" c = true := by
  rcases h with rfl | rfl | rfl | rfl <;> decide

/-- Claim C7: after the home-country override — both as applied directly
(cached-snapshot re-adoption) and at the end of `merge_datasets` — every
row whose country equals the default home country "United States" or one
of its aliases has `visa_free = true`, regardless of the upstream
visa-free country set. -/
theorem home_country_override_guarantee :
    (∀ rows r, r ∈ applyHomeCountryVisaOverride rows "United States" →
      (r.country = some "United States" ∨
       r.country = some "United States of America" ∨
       r.country = some "USA" ∨ r.country = some "US") →
      r.visa_free = true) ∧
    (∀ cost vd mobile fixed rows r,
      merge_datasets cost vd mobile fixed = some rows → r ∈ rows →
      (r.country = some "United States" ∨
       r.country = some "United States of America" ∨
       r.country = some "USA" ∨ r.country = some "US") →
      r.visa_free = true) := by
  constructor
  · intro rows r hr hc
    exact applyOverride_mask_visa rows "United States" r hr (homeMask_of_alias _ hc)
  · intro cost vd mobile fixed rows r hm hr hc
    unfold merge_datasets at hm
    split at hm
    · exact absurd hm (by simp)
    · injection hm with hm
      subst hm
      exact applyOverride_mask_visa _ "United States" r hr (homeMask_of_alias _ hc)

/-- A combined row for New York with `visa_free` initially false. -/
def rowNY : CombRow :=
  { row0 with city := some "New York", country := some "United States"
              visa_free := false, monthly_cost := some 3000
              avg_internet_mbps := some 150 }

/-- Witness for C7: overriding a one-row table whose country is the home
country itself flips its `visa_free` to true. -/
theorem home_country_override_guarantee_witness :
    { rowNY with visa_free := true }.visa_free = true :=
  home_country_override_guarantee.1 [rowNY] { rowNY with visa_free := true }
    (by decide) (Or.inl rfl)

/-!
Claim C3 — cache-only mode with no usable snapshot.
-/

/-- The fold inside `_find_latest_combined_cache` only ever returns its
seed or a scanned file. -/
theorem foldl_latest_mem (l : List (String × List CombRow))
    (acc : Option (String × List CombRow)) (p : String × List CombRow)
    (h : l.foldl (fun acc p =>
      match acc with
      | none => some p
      | some q => if q.1 < p.1 then some p else some q) acc = some p) :
    acc = some p ∨ p ∈ l := by
  induction l generalizing acc with
  | nil => exact Or.inl h
  | cons a t ih =>
    simp only [List.foldl_cons] at h
    rcases ih _ h with h1 | h2
    · rcases acc with _ | q
      · have h1' : some a = some p := h1
        injection h1' with h1'
        exact Or.inr (h1' ▸ List.mem_cons_self a t)
      · have h1' : (if q.1 < a.1 then some a else some q) = some p := h1
        split at h1'
        · injection h1' with h1'
          exact Or.inr (h1' ▸ List.mem_cons_self a t)
        · exact Or.inl h1'
    · exact Or.inr (List.mem_cons_of_mem a h2)

/-- Any file `_find_latest_combined_cache` returns was on disk. -/
theorem findLatestCache_mem (env : Env) (p : String × List CombRow)
    (h : findLatestCache env = some p) : p ∈ env.files := by
  unfold findLatestCache at h
  rcases foldl_latest_mem env.files none p h with h1 | h2
  · cases h1
  · exact h2

/-- Claim C3: when cache-only mode is on and no snapshot file on disk is
valid (in particular neither a valid today-tagged file nor a valid file of
any other day exists), `ensure_daily_dataset` fails with the
`NoCachedDataError` condition and invokes none of the three source
fetchers. -/
theorem ensure_daily_cache_only_no_data (env : Env)
    (hmode : env.cacheOnly = true)
    (hfiles : ∀ p ∈ env.files, dfLooksValid p.2 = false) :
    ensure_daily_dataset env = (Except.error DNError.noCachedData, []) := by
  have htoday : tryReadToday env = none := by
    unfold tryReadToday
    rcases hfind : env.files.find? (fun p => p.1 == env.todayTag) with _ | p
    · rw [hfind]
    · rw [hfind]
      have hp : p ∈ env.files := List.mem_of_find?_eq_some hfind
      simp [hfiles p hp]
  have hlatest : tryReadLatestAnyDay env = none := by
    unfold tryReadLatestAnyDay
    rcases hfind : findLatestCache env with _ | p
    · rfl
    · have hp : p ∈ env.files := findLatestCache_mem env p hfind
      simp [hfiles p hp]
  unfold ensure_daily_dataset
  rw [htoday, hmode, hlatest]
  rfl

/-- A cache-only environment whose only snapshot file is empty (hence
invalid). -/
def envC3 : Env :=
  { todayTag := "20251012", files := [("20251011", [])], cacheOnly := true
    visaSrc := [], costSrc := [], costRateLimited := false
    costHttpError := false, mobileSrc := [], fixedSrc := [] }

/-- Witness for C3 on the concrete environment `envC3`. -/
theorem ensure_daily_cache_only_no_data_witness :
    ensure_daily_dataset envC3 = (Except.error DNError.noCachedData, []) :=
  ensure_daily_cache_only_no_data envC3 rfl (by decide)

/-!
Rounding facts used for the `get_recommendations` claims.
-/

/-- Round-half-even never rounds below the floor. -/
theorem rhe_lb (x : ℚ) : ⌊x⌋ ≤ rhe x := by
  unfold rhe
  split_ifs <;> omega

/-- Round-half-even never rounds above the ceiling. -/
theorem rhe_ub (x : ℚ) : rhe x ≤ ⌊x⌋ + 1 := by
  unfold rhe
  split_ifs <;> omega

/-- Round-half-even is monotone. -/
theorem rhe_mono {x y : ℚ} (h : x ≤ y) : rhe x ≤ rhe y := by
  rcases lt_or_eq_of_le (Int.floor_mono h) with hf | hf
  · have h1 := rhe_ub x
    have h2 := rhe_lb y
    omega
  · unfold rhe
    rw [← hf]
    have hfl : (⌊x⌋ : ℚ) ≤ x := Int.floor_le x
    split_ifs <;> first | omega | linarith

/-- Rounding to two decimals is monotone, so the rounded output table of
`get_recommendations` is still ordered by score. -/
theorem round2_mono {x y : ℚ} (h : x ≤ y) : round2 x ≤ round2 y := by
  unfold round2
  have h1 : rhe (x * 100) ≤ rhe (y * 100) := rhe_mono (by linarith)
  have h2 : ((rhe (x * 100) : ℤ) : ℚ) ≤ ((rhe (y * 100) : ℤ) : ℚ) :=
    Int.cast_le.mpr h1
  linarith

/-- Descending-score order on the rounded output rows. -/
def resScoreGe (a b : ResultRow) : Prop :=
  ∀ x y, a.nomad_score = some x → b.nomad_score = some y → y ≤ x

/-- The descending order on pre-projection rows carries over to the rounded
projections. -/
theorem scoreGe_res {a b : CombRow} (h : scoreGe a b) :
    resScoreGe (projectRound a) (projectRound b) := by
  intro x y hx hy
  simp only [projectRound, oround2, Option.map_eq_some'] at hx hy
  obtain ⟨xa, hxa, rfl⟩ := hx
  obtain ⟨yb, hyb, rfl⟩ := hy
  have hle : yb ≤ xa := by
    unfold scoreGe sval at h
    rw [hxa, hyb] at h
    simpa using h
  exact round2_mono hle

/-- Characterization of the pandas `<=` filter test. -/
theorem pyLeQ_iff (a : Option ℚ) (c : ℚ) :
    pyLeQ a c = true ↔ ∃ x, a = some x ∧ x ≤ c := by
  cases a <;> simp [pyLeQ]

/-- Characterization of the pandas `>=` filter test. -/
theorem pyGeQ_iff (a : Option ℚ) (c : ℚ) :
    pyGeQ a c = true ↔ ∃ x, a = some x ∧ c ≤ x := by
  cases a <;> simp [pyGeQ]

/-- What surviving the visa filter means. -/
theorem visaFilter_sub (vfo : Bool) (l : List CombRow) (r : CombRow)
    (h : r ∈ visaFilter vfo l) :
    r ∈ l ∧ (vfo = true → r.visa_free = true) := by
  cases vfo <;> simp_all [visaFilter, List.mem_filter]

/-- What surviving the speed filter means (nothing, when `min_speed` is
falsy). -/
theorem speedFilter_sub (ms : ℚ) (l : List CombRow) (r : CombRow)
    (h : r ∈ speedFilter ms l) :
    r ∈ l ∧ (ms ≠ 0 → pyGeQ r.avg_internet_mbps ms = true) := by
  unfold speedFilter at h
  by_cases hms : ms ≠ 0
  · rw [if_pos hms] at h
    obtain ⟨h1, h2⟩ := List.mem_filter.mp h
    exact ⟨h1, fun _ => h2⟩
  · rw [if_neg hms] at h
    exact ⟨h, fun hc => absurd hc hms⟩

/-- The region filter only removes rows. -/
theorem regionFilter_sub (reg : Option String) (l : List CombRow) (r : CombRow)
    (h : r ∈ regionFilter reg l) : r ∈ l := by
  unfold regionFilter at h
  split at h
  · exact (List.mem_filter.mp h).1
  · exact h

/-- What surviving the budget filter means. -/
theorem budgetFilter_sub (b : ℚ) (l : List CombRow) (r : CombRow)
    (h : r ∈ budgetFilter b l) :
    r ∈ l ∧ pyLeQ r.monthly_cost b = true :=
  List.mem_filter.mp h

/-- Every returned row of `get_recommendations` is the rounded projection
of a source row that survived every filter. -/
theorem mem_get_recommendations (df : List CombRow) (b ms : ℚ) (vfo : Bool)
    (n : ℕ) (reg : Option String) (r : ResultRow)
    (hr : r ∈ get_recommendations df b ms vfo n reg) :
    ∃ r0, r0 ∈ df ∧ r = projectRound r0 ∧ r0.nomad_score.isSome = true ∧
      pyLeQ r0.monthly_cost b = true ∧
      (ms ≠ 0 → pyGeQ r0.avg_internet_mbps ms = true) ∧
      (vfo = true → r0.visa_free = true) := by
  unfold get_recommendations nlargestByScore at hr
  obtain ⟨t, ht, rfl⟩ := List.mem_map.mp hr
  have ht1 := List.mem_of_mem_take ht
  rw [List.mem_insertionSort] at ht1
  obtain ⟨ht2, hscore⟩ := List.mem_filter.mp ht1
  obtain ⟨ht3, hvisa⟩ := visaFilter_sub vfo _ t ht2
  obtain ⟨ht4, hspeed⟩ := speedFilter_sub ms _ t ht3
  have ht5 := regionFilter_sub reg _ t ht4
  obtain ⟨ht6, hbud⟩ := budgetFilter_sub b _ t ht5
  exact ⟨t, ht6, rfl, hscore, hbud, hspeed, hvisa⟩

/-!
Claim C2 — the guarantees of `get_recommendations`.
-/

/-- A scored row whose monthly cost 999.996 rounds up to 1000 in the
output projection. -/
def rowB : CombRow :=
  { row0 with city := some "Bangkok", country := some "Thailand"
              visa_free := true, monthly_cost := some (249999/250)
              avg_internet_mbps := some 100, nomad_score := some 50 }

/-- Rounding evaluation used by the counterexample. -/
theorem round2_999996 : round2 (249999/250 : ℚ) = 1000 := by
  unfold round2 rhe
  norm_num

/-- Counterexample to C2 as stated: the output projection rounds numeric
cells to two decimals, so a returned row can display a `monthly_cost`
strictly greater than the requested budget (cost 999.996 passes the
budget filter for budget 999.996, then rounds up to 1000.00). -/
theorem get_recommendations_budget_counterexample :
    (get_recommendations [rowB] (249999/250) 0 false 5 none).map
      ResultRow.monthly_cost = [some 1000] ∧
    (249999/250 : ℚ) < 1000 := by
  constructor
  · simp [get_recommendations, nlargestByScore, budgetFilter, regionFilter,
      regionActive, speedFilter, visaFilter, pyLeQ, rowB, row0,
      List.insertionSort, List.orderedInsert, projectRound, oround2,
      round2_999996]
  · norm_num

/-- Claim C2 (amended): for every scored table and every call, the result
has at most `top_n` rows, is ordered by `nomad_score` descending, and every
returned row is the two-decimal rounding of a source row whose underlying
`monthly_cost` is defined and at most `max_budget`, whose underlying
`avg_internet_mbps` is defined and at least `min_speed` whenever
`min_speed` is non-zero (a zero `min_speed` skips the speed filter), and
whose `visa_free` is true when `visa_free_only` is requested (the rounded
displayed values may differ from the underlying ones by at most half a
cent). -/
theorem get_recommendations_spec (df : List CombRow) (maxBudget minSpeed : ℚ)
    (vfo : Bool) (topN : ℕ) (reg : Option String) :
    (get_recommendations df maxBudget minSpeed vfo topN reg).length ≤ topN ∧
    List.Pairwise resScoreGe
      (get_recommendations df maxBudget minSpeed vfo topN reg) ∧
    ∀ r ∈ get_recommendations df maxBudget minSpeed vfo topN reg,
      (vfo = true → r.visa_free = true) ∧
      ∃ r0, r0 ∈ df ∧ r = projectRound r0 ∧
        (∃ c, r0.monthly_cost = some c ∧ c ≤ maxBudget) ∧
        (minSpeed ≠ 0 → ∃ s, r0.avg_internet_mbps = some s ∧ minSpeed ≤ s) ∧
        (vfo = true → r0.visa_free = true) := by
  refine ⟨?_, ?_, ?_⟩
  · unfold get_recommendations nlargestByScore
    rw [List.length_map]
    exact List.length_take_le _ _
  · unfold get_recommendations nlargestByScore
    refine List.Pairwise.map projectRound (fun a b h => scoreGe_res h) ?_
    refine List.Pairwise.sublist (List.take_sublist _ _) ?_
    exact List.sorted_insertionSort scoreGe _
  · intro r hr
    obtain ⟨r0, hmem, rfl, hsome, hbud, hspd, hvisa⟩ :=
      mem_get_recommendations df maxBudget minSpeed vfo topN reg r hr
    refine ⟨fun hv => hvisa hv, r0, hmem, rfl, ?_, ?_, hvisa⟩
    · exact (pyLeQ_iff _ _).mp hbud
    · intro hms
      exact (pyGeQ_iff _ _).mp (hspd hms)

/-- The rounded projection of the scored row `rowA1`. -/
def resRowA : ResultRow :=
  { city := some "Lisbon", country := some "Portugal", nomad_score := some 60
    monthly_cost := some 1000, avg_internet_mbps := some 75, visa_free := true
    rent_1br_city_center_usd := none, internet_60mbps_usd := none
    transport_monthly_pass_usd := none }

/-- Rounding evaluations used by the concrete membership fact below. -/
theorem round2_sixty : round2 (60 : ℚ) = 60 := by
  unfold round2 rhe
  norm_num

/-- Rounding of the concrete monthly cost 1000. -/
theorem round2_thousand : round2 (1000 : ℚ) = 1000 := by
  unfold round2 rhe
  norm_num

/-- Rounding of the concrete average speed 75. -/
theorem round2_seventyfive : round2 (75 : ℚ) = 75 := by
  unfold round2 rhe
  norm_num

/-- The concrete scored table `[rowA1]` returns exactly the rounded
projection `resRowA` for budget 2000, minimum speed 30, visa-only, top 3. -/
theorem resRowA_mem :
    resRowA ∈ get_recommendations [rowA1] 2000 30 true 3 none := by
  simp [get_recommendations, nlargestByScore, budgetFilter, regionFilter,
    regionActive, speedFilter, visaFilter, pyLeQ, pyGeQ, rowA1, rowA, row0,
    List.insertionSort, List.orderedInsert, projectRound, oround2, resRowA,
    round2_sixty, round2_thousand, round2_seventyfive]

/-- Witness for the amended C2, instantiated on the concrete call above. -/
theorem get_recommendations_spec_witness :
    (true = true → resRowA.visa_free = true) ∧
    ∃ r0, r0 ∈ [rowA1] ∧ resRowA = projectRound r0 ∧
      (∃ c, r0.monthly_cost = some c ∧ c ≤ 2000) ∧
      ((30 : ℚ) ≠ 0 → ∃ s, r0.avg_internet_mbps = some s ∧ 30 ≤ s) ∧
      (true = true → r0.visa_free = true) :=
  (get_recommendations_spec [rowA1] 2000 30 true 3 none).2.2 resRowA resRowA_mem

/-!
Claim C10 — the `if min_speed:` truthiness guard.
-/

/-- A scored row whose `avg_internet_mbps` is NaN but whose `nomad_score`
is defined (as a cached snapshot can contain). -/
def rowC : CombRow :=
  { row0 with city := some "Dubai", country := some "United Arab Emirates"
              visa_free := true, monthly_cost := some 900
              avg_internet_mbps := none, nomad_score := some 70 }

/-- Claim C10: a zero `min_speed` is falsy, so the speed filter is skipped
entirely and a row with NaN `avg_internet_mbps` can appear in the returned
table (shown concretely on `[rowC]`); for every strictly positive
`min_speed` the NaN comparison is false, so no returned row has an
undefined `avg_internet_mbps`. -/
theorem get_recommendations_min_speed_semantics :
    (∀ l, speedFilter 0 l = l) ∧
    (get_recommendations [rowC] 1000 0 false 5 none).map
      ResultRow.avg_internet_mbps = [none] ∧
    (∀ df b (ms : ℚ) vfo n reg r, 0 < ms →
      r ∈ get_recommendations df b ms vfo n reg →
      r.avg_internet_mbps ≠ none) := by
  refine ⟨?_, ?_, ?_⟩
  · intro l
    simp [speedFilter]
  · simp [get_recommendations, nlargestByScore, budgetFilter, regionFilter,
      regionActive, speedFilter, visaFilter, pyLeQ, rowC, row0,
      List.insertionSort, List.orderedInsert, projectRound, oround2]
  · intro df b ms vfo n reg r hms hr
    obtain ⟨r0, _, rfl, _, _, hspd, _⟩ :=
      mem_get_recommendations df b ms vfo n reg r hr
    obtain ⟨s, hs, _⟩ := (pyGeQ_iff _ _).mp (hspd (ne_of_gt hms))
    simp [projectRound, oround2, hs]

/-- Witness for C10's universal part on the concrete call above. -/
theorem get_recommendations_min_speed_semantics_witness :
    resRowA.avg_internet_mbps ≠ none :=
  get_recommendations_min_speed_semantics.2.2 [rowA1] 2000 30 true 3 none
    resRowA (by norm_num) resRowA_mem

end DN
